import Mathlib

/-!
Verification of the nova-ecs-physics-core synchronization layer.

The TypeScript sources are embedded shallowly:

- the `Fixed` fixed-point scalar type of the external math package
  (`@esengine/nova-ecs-math`) is modelled as the exact rationals `ℚ`
  (its `add`/`subtract`/`multiply`/`divide` and comparisons are modelled
  as exact arithmetic); for the debug renderer, whose transforms call
  `cos`/`sin` on a `Fixed`, the model uses the reals `ℝ`;
- stateful methods become functions from explicit state to new state plus
  an observable trace of the side effects they perform (engine step calls,
  callback invocations, log lines);
- a JavaScript exception channel becomes an `Except String` value and a
  `try`/`catch` becomes a `match` on that value.
-/

namespace NovaPhysics

/-- Two-dimensional vector over a scalar type, the shape of the external
`FixedVector2` record (`x`/`y` fields). -/
@[ext]
structure Vec2 (α : Type) where
  x : α
  y : α
deriving DecidableEq, Repr

/-- Componentwise `FixedVector2.add`. -/
def Vec2.add {α : Type} [Add α] (a b : Vec2 α) : Vec2 α :=
  ⟨a.x + b.x, a.y + b.y⟩

/-- Componentwise `FixedVector2.subtract`. -/
def Vec2.sub {α : Type} [Sub α] (a b : Vec2 α) : Vec2 α :=
  ⟨a.x - b.x, a.y - b.y⟩

/-- Scalar `FixedVector2.multiply` (both components scaled). -/
def Vec2.smul {α : Type} [Mul α] (a : Vec2 α) (s : α) : Vec2 α :=
  ⟨a.x * s, a.y * s⟩

/-- Scalar `FixedVector2.divide` (both components divided). -/
def Vec2.sdiv {α : Type} [Div α] (a : Vec2 α) (s : α) : Vec2 α :=
  ⟨a.x / s, a.y / s⟩

/-! ## Step Driver (`PhysicsWorldSystem.update`, src/systems/PhysicsSystems.ts)

`update(_entities, deltaTime)` adds `deltaTime` to the accumulator and then
runs

  while (accumulator ≥ fixedTimeStep ∧ subSteps < maxSubSteps) {
    physicsWorld.step(fixedTimeStep); accumulator -= fixedTimeStep; subSteps++
  }

The loop is embedded with the remaining sub-step budget
(`maxSubSteps - subSteps`) as structural fuel; the returned list records the
duration passed to each `physicsWorld.step` call, in order. -/

/-- Stepping state of a `PhysicsWorldSystem`: whether `physicsWorld` is
non-null, and the `accumulator` field. -/
structure StepDriverState where
  hasWorld : Bool
  accumulator : ℚ
deriving DecidableEq, Repr

/-- The fixed-time-step loop body of `PhysicsWorldSystem.update`: starting
from accumulator `acc` with `fuel` sub-steps still allowed, return the final
accumulator and the list of durations passed to `physicsWorld.step`. -/
def stepLoop (fixedTimeStep : ℚ) : ℚ → ℕ → ℚ × List ℚ
  | acc, 0 => (acc, [])
  | acc, fuel + 1 =>
    if fixedTimeStep ≤ acc then
      let rest := stepLoop fixedTimeStep (acc - fixedTimeStep) fuel
      (rest.1, fixedTimeStep :: rest.2)
    else
      (acc, [])

/-- `PhysicsWorldSystem.update`: if `physicsWorld` is null return at once;
otherwise add `deltaTime` to the accumulator and run the sub-step loop.
(`updateTransforms`, called at the end of `update`, acts only on entity
components and is embedded separately as `updateTransformEntity`.) -/
def PhysicsWorldSystem.update (fixedTimeStep : ℚ) (maxSubSteps : ℕ)
    (s : StepDriverState) (deltaTime : ℚ) : StepDriverState × List ℚ :=
  if s.hasWorld then
    let acc := s.accumulator + deltaTime
    let r := stepLoop fixedTimeStep acc maxSubSteps
    (⟨s.hasWorld, r.1⟩, r.2)
  else
    (s, [])

/-- Default of the `maxSubSteps` field of `PhysicsWorldSystem` (hard-coded). -/
def maxSubStepsDefault : ℕ := 10

/-- Number of sub-steps a single `update` pass performs, as the claim states
it: `min maxSubSteps ⌊(accumulator + dt) / fixedTimeStep⌋`. -/
def substepCount (fixedTimeStep : ℚ) (maxSubSteps : ℕ) (acc dt : ℚ) : ℕ :=
  min maxSubSteps ⌊(acc + dt) / fixedTimeStep⌋₊

/-- Characterization of the sub-step loop: with a positive fixed time step
the loop runs `min fuel ⌊acc / ts⌋` times (natural-number floor), passes
`ts` to every step call, and subtracts `ts` once per step. -/
theorem stepLoop_spec (ts : ℚ) (hts : 0 < ts) :
    ∀ (fuel : ℕ) (acc : ℚ),
      stepLoop ts acc fuel =
        (acc - (min fuel ⌊acc / ts⌋₊ : ℕ) * ts,
         List.replicate (min fuel ⌊acc / ts⌋₊) ts) := by
  intro fuel
  induction fuel with
  | zero =>
    intro acc
    simp [stepLoop]
  | succ fuel ih =>
    intro acc
    by_cases hge : ts ≤ acc
    · have h1 : (1 : ℚ) ≤ acc / ts := (one_le_div hts).mpr hge
      have hfl : 1 ≤ ⌊acc / ts⌋₊ := Nat.le_floor (by exact_mod_cast h1)
      have hsub : (acc - ts) / ts = acc / ts - 1 := by
        rw [sub_div, div_self hts.ne']
      have hfl2 : ⌊(acc - ts) / ts⌋₊ = ⌊acc / ts⌋₊ - 1 := by
        rw [hsub]
        simp [Nat.floor_sub_nat (acc / ts) 1]
      have ihe := ih (acc - ts)
      have hmin : min (fuel + 1) ⌊acc / ts⌋₊ = min fuel (⌊acc / ts⌋₊ - 1) + 1 := by
        omega
      simp only [stepLoop, if_pos hge, ihe, hfl2, hmin, Prod.mk.injEq]
      constructor
      · push_cast
        ring
      · rw [List.replicate_succ]
    · have hlt : acc < ts := lt_of_not_le hge
      have hf0 : ⌊acc / ts⌋₊ = 0 :=
        Nat.floor_eq_zero.mpr ((div_lt_one hts).mpr hlt)
      simp [stepLoop, if_neg hge, hf0]

/-- C1: for every `deltaTime` (non-negative ones included) and every prior
accumulator value, a single `PhysicsWorldSystem.update(deltaTime)` call with
a live world and positive fixed time step invokes `physicsWorld.step`
exactly `k = min maxSubSteps ⌊(accumulator + deltaTime) / fixedTimeStep⌋`
times (natural-number floor), passes exactly `fixedTimeStep` to every
invocation, leaves the accumulator at
`accumulator + deltaTime - k·fixedTimeStep`, and the final accumulator is
below `fixedTimeStep` unless the sub-step cap was hit. -/
theorem update_fixed_stepping (ts : ℚ) (maxS : ℕ) (s : StepDriverState) (dt : ℚ)
    (hts : 0 < ts) (hw : s.hasWorld = true) :
    (PhysicsWorldSystem.update ts maxS s dt).2 =
      List.replicate (substepCount ts maxS s.accumulator dt) ts ∧
    (PhysicsWorldSystem.update ts maxS s dt).1.accumulator =
      s.accumulator + dt - (substepCount ts maxS s.accumulator dt : ℕ) * ts ∧
    (substepCount ts maxS s.accumulator dt ≠ maxS →
      (PhysicsWorldSystem.update ts maxS s dt).1.accumulator < ts) := by
  have hloop := stepLoop_spec ts hts maxS (s.accumulator + dt)
  simp only [PhysicsWorldSystem.update, hw, if_true, hloop, substepCount]
  refine ⟨trivial, trivial, ?_⟩
  intro hk
  have hkfl : min maxS ⌊(s.accumulator + dt) / ts⌋₊ = ⌊(s.accumulator + dt) / ts⌋₊ := by
    omega
  rw [hkfl]
  have hlt1 : (s.accumulator + dt) / ts < ⌊(s.accumulator + dt) / ts⌋₊ + 1 :=
    Nat.lt_floor_add_one ((s.accumulator + dt) / ts)
  have hlt2 : s.accumulator + dt < (⌊(s.accumulator + dt) / ts⌋₊ + 1 : ℚ) * ts :=
    (div_lt_iff₀ hts).mp hlt1
  nlinarith [hlt2]

/-- Witness for `update_fixed_stepping` at the documented scenario:
`fixedTimeStep = 1/60`, `maxSubSteps = 10`, accumulator `0`, one
`update(1.0)` call: ten steps occur and the accumulator keeps `1 - 10/60`. -/
theorem update_fixed_stepping_witness :
    substepCount (1/60) 10 0 1 = 10 ∧
    (PhysicsWorldSystem.update (1/60) 10 ⟨true, 0⟩ 1).2 =
      List.replicate (substepCount (1/60) 10 0 1) (1/60) ∧
    (PhysicsWorldSystem.update (1/60) 10 ⟨true, 0⟩ 1).1.accumulator =
      0 + 1 - (substepCount (1/60) 10 0 1 : ℕ) * (1/60) ∧
    (substepCount (1/60) 10 0 1 ≠ 10 →
      (PhysicsWorldSystem.update (1/60) 10 ⟨true, 0⟩ 1).1.accumulator < 1/60) := by
  have hmain := update_fixed_stepping (1/60) 10 ⟨true, 0⟩ 1
    (by norm_num) rfl
  exact ⟨by norm_num [substepCount], hmain.1, hmain.2.1, hmain.2.2⟩

/-! ## Transform Sync (`PhysicsTransformComponent`, src/interfaces/IPhysicsEngine.ts,
and `PhysicsWorldSystem.updateTransforms`, src/systems/PhysicsSystems.ts) -/

/-- Fixed Snapshot: the mutable fields of `PhysicsTransformComponent`
(`scale` is carried along but never touched by the sync code). -/
structure PhysicsTransformComponent where
  position : Vec2 ℚ
  rotation : ℚ
  scale : Vec2 ℚ
  previousPosition : Vec2 ℚ
  previousRotation : ℚ
deriving DecidableEq, Repr

/-- `PhysicsTransformComponent.updatePrevious`: copy the current position
and rotation into the previous fields. -/
def PhysicsTransformComponent.updatePrevious
    (t : PhysicsTransformComponent) : PhysicsTransformComponent :=
  { t with previousPosition := t.position, previousRotation := t.rotation }

/-- Authoritative pose read from a physics body handle
(`body.getPosition()` / `body.getRotation()`). -/
structure BodyPose where
  position : Vec2 ℚ
  rotation : ℚ
deriving DecidableEq, Repr

/-- Per-entity body of the `updateTransforms` loop: when the entity's
`RigidBodyComponent.body` is non-null (`some pose`), call `updatePrevious`
and then overwrite `position`/`rotation` from the body handle; otherwise
leave the snapshot untouched. -/
def updateTransformEntity (body : Option BodyPose)
    (t : PhysicsTransformComponent) : PhysicsTransformComponent :=
  match body with
  | some pose =>
    let t1 := t.updatePrevious
    { t1 with position := pose.position, rotation := pose.rotation }
  | none => t

/-- `PhysicsTransformComponent.getInterpolatedPosition`. The call
`FixedVector2.lerp(previousPosition, position, alpha)` lives in the external
math package; it is modelled from the spec as the affine interpolation
`a + (b - a) * alpha`, componentwise. -/
def PhysicsTransformComponent.getInterpolatedPosition
    (t : PhysicsTransformComponent) (alpha : ℚ) : Vec2 ℚ :=
  ⟨t.previousPosition.x + (t.position.x - t.previousPosition.x) * alpha,
   t.previousPosition.y + (t.position.y - t.previousPosition.y) * alpha⟩

/-- `PhysicsTransformComponent.getInterpolatedRotation`:
`previousRotation + (rotation - previousRotation) * alpha`. -/
def PhysicsTransformComponent.getInterpolatedRotation
    (t : PhysicsTransformComponent) (alpha : ℚ) : ℚ :=
  t.previousRotation + (t.rotation - t.previousRotation) * alpha

/-- C6: for an entity with a non-null body handle and a Fixed Snapshot, one
transform-sync refresh leaves the previous fields equal to the pre-refresh
pose and the current fields equal to the body pose. -/
theorem updateTransforms_refresh (pose : BodyPose) (t : PhysicsTransformComponent) :
    (updateTransformEntity (some pose) t).previousPosition = t.position ∧
    (updateTransformEntity (some pose) t).previousRotation = t.rotation ∧
    (updateTransformEntity (some pose) t).position = pose.position ∧
    (updateTransformEntity (some pose) t).rotation = pose.rotation := by
  refine ⟨rfl, rfl, rfl, rfl⟩

/-- C7: for every Fixed Snapshot and every alpha (no clamping), the
interpolation queries return the affine formulas of the spec, and
`alpha = 0` gives exactly the previous-step pose while `alpha = 1` gives
exactly the current authoritative pose. -/
theorem interpolate_formula_and_endpoints (t : PhysicsTransformComponent) :
    (∀ alpha : ℚ,
      t.getInterpolatedPosition alpha =
        ⟨t.previousPosition.x + (t.position.x - t.previousPosition.x) * alpha,
         t.previousPosition.y + (t.position.y - t.previousPosition.y) * alpha⟩ ∧
      t.getInterpolatedRotation alpha =
        t.previousRotation + (t.rotation - t.previousRotation) * alpha) ∧
    t.getInterpolatedPosition 0 = t.previousPosition ∧
    t.getInterpolatedRotation 0 = t.previousRotation ∧
    t.getInterpolatedPosition 1 = t.position ∧
    t.getInterpolatedRotation 1 = t.rotation := by
  refine ⟨fun alpha => ⟨rfl, rfl⟩, ?_, ?_, ?_, ?_⟩
  · ext <;> simp [PhysicsTransformComponent.getInterpolatedPosition]
  · simp [PhysicsTransformComponent.getInterpolatedRotation]
  · ext <;> simp [PhysicsTransformComponent.getInterpolatedPosition]
  · simp [PhysicsTransformComponent.getInterpolatedRotation]

/-! ## Event Correlator (`PhysicsWorldSystem.handleCollisionEvent`,
`getEntityFromBody`, `handleEntityCollision` in the systems source, and
`CollisionEventComponent` in src/interfaces/IPhysicsEngine.ts)

A registered listener is opaque to the correlator: it is modelled as a
registration identifier plus its observable behaviour when invoked with the
other entity (normal return, or a thrown error carrying a message string).
Dispatch produces a trace of the performed side effects:

- `invoked cid other`: the listener registered as `cid` was called with the
  entity whose id is `other`;
- `warned msg`: `PhysicsLogger.warn(msg)` was called (the logger itself
  only prefixes and prints the message);
- `emitted`: a publication on the global physics event channel
  (`IPhysicsEventManager.emit`); the constructor exists so the absence of
  such publications is expressible. -/

/-- One registered collision callback: a registration identifier and the
observable result of invoking it (`Except.error` models a thrown error). -/
structure Callback where
  cid : ℕ
  run : ℕ → Except String Unit

/-- `CollisionEventComponent`: per-entity ordered callback lists (the
sensor lists exist in the source but are never read by the correlator, so
only the two collision lists are carried). -/
structure CollisionEventComponent where
  onCollisionBegin : List Callback
  onCollisionEnd : List Callback

/-- Logical entity: its `id` and its optional `CollisionEventComponent`. -/
structure Entity where
  id : ℕ
  collisionComp : Option CollisionEventComponent

/-- Observable side effects of handling one notification. -/
inductive TraceEvent where
  | invoked (cid : ℕ) (other : ℕ)
  | warned (msg : String)
  | emitted
deriving DecidableEq, Repr

/-- One iteration of a `forEach` dispatch loop:
try { callback(other) } catch (error) { PhysicsLogger.warn(...) }.
The warn message is the string passed to `PhysicsLogger.warn`, built as in
the source from the event kind and the stringified error. -/
def invokeCaught (kind : String) (cb : Callback) (other : Entity) : List TraceEvent :=
  TraceEvent.invoked cb.cid other.id ::
    (match cb.run other.id with
     | Except.ok _ => []
     | Except.error e =>
       [TraceEvent.warned ("Error in collision " ++ kind ++ " callback: " ++ e)])

/-- A whole `forEach` dispatch loop over one callback list. -/
def dispatchCallbacks (kind : String) (cbs : List Callback) (other : Entity) :
    List TraceEvent :=
  cbs.flatMap (fun cb => invokeCaught kind cb other)

/-- `PhysicsWorldSystem.handleEntityCollision`: for entity A then entity B,
if the entity has a `CollisionEventComponent`, dispatch its begin list when
`isBeginContact`, else its end list when `isEndContact`, else nothing. -/
def PhysicsWorldSystem.handleEntityCollision (entityA entityB : Entity)
    (isBeginContact isEndContact : Bool) : List TraceEvent :=
  (match entityA.collisionComp with
   | some comp =>
     if isBeginContact then dispatchCallbacks "begin" comp.onCollisionBegin entityB
     else if isEndContact then dispatchCallbacks "end" comp.onCollisionEnd entityB
     else []
   | none => []) ++
  (match entityB.collisionComp with
   | some comp =>
     if isBeginContact then dispatchCallbacks "begin" comp.onCollisionBegin entityA
     else if isEndContact then dispatchCallbacks "end" comp.onCollisionEnd entityA
     else []
   | none => [])

/-- Opaque engine body handle: `getUserData()` may throw (`Except.error`),
or return data that is null or not an entity (`Except.ok none`), or return
the owning entity (`Except.ok (some e)`). -/
structure Body where
  userData : Except String (Option Entity)

/-- `PhysicsWorldSystem.getEntityFromBody`: read the back-reference inside
its own try/catch; a thrown error, null user data, or non-entity user data
all resolve to `none`. -/
def PhysicsWorldSystem.getEntityFromBody (body : Body) : Option Entity :=
  match body.userData with
  | Except.ok (some e) => some e
  | Except.ok none => none
  | Except.error _ => none

/-- Collision/sensor notification record delivered by the engine. -/
structure CollisionEventData where
  bodyA : Body
  bodyB : Body
  isBeginContact : Bool
  isEndContact : Bool

/-- `PhysicsWorldSystem.handleCollisionEvent`: bail out when the ECS world
is gone, resolve both bodies, and dispatch only when both resolve. The
outer try/catch of the source surrounds code that cannot throw in this
model (resolution and dispatch both swallow their faults), so it has no
trace of its own. -/
def PhysicsWorldSystem.handleCollisionEvent (hasWorld : Bool)
    (data : CollisionEventData) : List TraceEvent :=
  if hasWorld then
    match PhysicsWorldSystem.getEntityFromBody data.bodyA,
          PhysicsWorldSystem.getEntityFromBody data.bodyB with
    | some entityA, some entityB =>
      PhysicsWorldSystem.handleEntityCollision entityA entityB
        data.isBeginContact data.isEndContact
    | _, _ => []
  else []

/-- Callback invocations recorded in a trace: (registration id, argument). -/
def invocations (tr : List TraceEvent) : List (ℕ × ℕ) :=
  tr.filterMap fun e =>
    match e with
    | TraceEvent.invoked cid other => some (cid, other)
    | _ => none

/-- Messages passed to `PhysicsLogger.warn` in a trace. -/
def warnings (tr : List TraceEvent) : List String :=
  tr.filterMap fun e =>
    match e with
    | TraceEvent.warned m => some m
    | _ => none

/-- Number of publications on the global physics event channel in a trace. -/
def globalEmitCount (tr : List TraceEvent) : ℕ :=
  (tr.filterMap fun e =>
    match e with
    | TraceEvent.emitted => some ()
    | _ => none).length

/-- The warn message a single caught callback fault produces, as built by
the dispatch loops in `handleEntityCollision`. -/
def faultWarning (kind : String) : Except String Unit → Option String
  | Except.ok _ => none
  | Except.error e => some ("Error in collision " ++ kind ++ " callback: " ++ e)

/-! ### Trace extraction lemmas -/

theorem invocations_append (t₁ t₂ : List TraceEvent) :
    invocations (t₁ ++ t₂) = invocations t₁ ++ invocations t₂ := by
  simp [invocations]

theorem warnings_append (t₁ t₂ : List TraceEvent) :
    warnings (t₁ ++ t₂) = warnings t₁ ++ warnings t₂ := by
  simp [warnings]

theorem globalEmitCount_append (t₁ t₂ : List TraceEvent) :
    globalEmitCount (t₁ ++ t₂) = globalEmitCount t₁ + globalEmitCount t₂ := by
  simp [globalEmitCount]

theorem invocations_invokeCaught (kind : String) (cb : Callback) (other : Entity) :
    invocations (invokeCaught kind cb other) = [(cb.cid, other.id)] := by
  cases hrun : cb.run other.id <;> simp [invokeCaught, invocations, hrun]

theorem warnings_invokeCaught (kind : String) (cb : Callback) (other : Entity) :
    warnings (invokeCaught kind cb other) =
      (faultWarning kind (cb.run other.id)).toList := by
  cases hrun : cb.run other.id <;> simp [invokeCaught, warnings, faultWarning, hrun]

theorem globalEmitCount_invokeCaught (kind : String) (cb : Callback) (other : Entity) :
    globalEmitCount (invokeCaught kind cb other) = 0 := by
  cases hrun : cb.run other.id <;> simp [invokeCaught, globalEmitCount, hrun]

/-- Every callback of a dispatched list is invoked exactly once, with the
other entity as argument, in registration order, regardless of which
callbacks raise. -/
theorem invocations_dispatchCallbacks (kind : String) (cbs : List Callback)
    (other : Entity) :
    invocations (dispatchCallbacks kind cbs other) =
      cbs.map (fun cb => (cb.cid, other.id)) := by
  induction cbs with
  | nil => rfl
  | cons cb rest ih =>
    rw [dispatchCallbacks, List.flatMap_cons, invocations_append,
      invocations_invokeCaught]
    rw [dispatchCallbacks] at ih
    rw [ih, List.map_cons]
    rfl

/-- A dispatched list logs exactly one warn message per raising callback,
built from the event kind and the error. -/
theorem warnings_dispatchCallbacks (kind : String) (cbs : List Callback)
    (other : Entity) :
    warnings (dispatchCallbacks kind cbs other) =
      cbs.filterMap (fun cb => faultWarning kind (cb.run other.id)) := by
  induction cbs with
  | nil => rfl
  | cons cb rest ih =>
    rw [dispatchCallbacks, List.flatMap_cons, warnings_append,
      warnings_invokeCaught]
    rw [dispatchCallbacks] at ih
    rw [ih]
    cases hfw : faultWarning kind (cb.run other.id) <;>
      simp [List.filterMap_cons, hfw]

theorem globalEmitCount_dispatchCallbacks (kind : String) (cbs : List Callback)
    (other : Entity) :
    globalEmitCount (dispatchCallbacks kind cbs other) = 0 := by
  induction cbs with
  | nil => rfl
  | cons cb rest ih =>
    rw [dispatchCallbacks, List.flatMap_cons, globalEmitCount_append,
      globalEmitCount_invokeCaught]
    rw [dispatchCallbacks] at ih
    rw [ih]

/-- A notification carrying both contact flags is handled exactly as a
begin notification (the `else if` for the end branch is never reached). -/
theorem handleEntityCollision_both_flags (a b : Entity) :
    PhysicsWorldSystem.handleEntityCollision a b true true =
      PhysicsWorldSystem.handleEntityCollision a b true false := by
  unfold PhysicsWorldSystem.handleEntityCollision
  simp

/-- A notification carrying neither contact flag dispatches nothing. -/
theorem handleEntityCollision_no_flags (a b : Entity) :
    PhysicsWorldSystem.handleEntityCollision a b false false = [] := by
  unfold PhysicsWorldSystem.handleEntityCollision
  rcases a.collisionComp with _ | compA <;> rcases b.collisionComp with _ | compB <;>
    simp

theorem globalEmitCount_nil : globalEmitCount [] = 0 := rfl

theorem globalEmitCount_handleEntityCollision (a b : Entity) (ib ie : Bool) :
    globalEmitCount (PhysicsWorldSystem.handleEntityCollision a b ib ie) = 0 := by
  unfold PhysicsWorldSystem.handleEntityCollision
  rw [globalEmitCount_append]
  rcases a.collisionComp with _ | compA <;> rcases b.collisionComp with _ | compB <;>
    cases ib <;> cases ie <;>
    simp [globalEmitCount_nil, globalEmitCount_dispatchCallbacks]

/-! ### Concrete fixtures used by witnesses and counterexamples -/

/-- Callback registered as `n` that returns normally. -/
def cbOk (n : ℕ) : Callback := ⟨n, fun _ => Except.ok ()⟩

/-- Callback registered as `n` that throws an error rendered as "E". -/
def cbBoom (n : ℕ) : Callback := ⟨n, fun _ => Except.error "E"⟩

/-- Entity 1 with a duplicate begin registration (id 10 twice). -/
def entA : Entity := ⟨1, some ⟨[cbOk 10, cbOk 10], [cbOk 11]⟩⟩

/-- Entity 2 with one begin callback and one end callback. -/
def entB : Entity := ⟨2, some ⟨[cbOk 20], [cbOk 21]⟩⟩

/-- Entity 7 whose first begin callback throws and whose second returns. -/
def entC : Entity := ⟨7, some ⟨[cbBoom 30, cbOk 31], []⟩⟩

/-- Entity 8 with the same callback lists as `entC` but a different id. -/
def entD : Entity := ⟨8, some ⟨[cbBoom 30, cbOk 31], []⟩⟩

/-- Well-formed begin notification for the pair (`entA`, `entB`). -/
def beginNotification : CollisionEventData :=
  ⟨⟨Except.ok (some entA)⟩, ⟨Except.ok (some entB)⟩, true, false⟩

/-- Malformed notification with both contact flags set, for (`entA`, `entB`). -/
def malformedBoth : CollisionEventData :=
  ⟨⟨Except.ok (some entA)⟩, ⟨Except.ok (some entB)⟩, true, true⟩

/-- C2: for entities A and B that both resolve from their body handles and
both carry a `CollisionEventComponent`, one begin notification for (A, B)
invokes each of the begin callbacks of A exactly once with B, then each of
the begin callbacks of B exactly once with A, in registration order, with
duplicate registrations invoked once per registration. -/
theorem begin_dispatch_order (a b : Entity)
    (compA compB : CollisionEventComponent)
    (ha : a.collisionComp = some compA) (hb : b.collisionComp = some compB) :
    invocations (PhysicsWorldSystem.handleCollisionEvent true
      ⟨⟨Except.ok (some a)⟩, ⟨Except.ok (some b)⟩, true, false⟩) =
      compA.onCollisionBegin.map (fun cb => (cb.cid, b.id)) ++
      compB.onCollisionBegin.map (fun cb => (cb.cid, a.id)) := by
  simp [PhysicsWorldSystem.handleCollisionEvent,
    PhysicsWorldSystem.getEntityFromBody,
    PhysicsWorldSystem.handleEntityCollision, ha, hb,
    invocations_append, invocations_dispatchCallbacks]

/-- Witness for `begin_dispatch_order`: entity 1 has the begin callback 10
registered twice, entity 2 has begin callback 20; a begin notification for
the pair invokes 10 twice with entity 2 and 20 once with entity 1. -/
theorem begin_dispatch_order_witness :
    entA.collisionComp = some ⟨[cbOk 10, cbOk 10], [cbOk 11]⟩ ∧
    invocations (PhysicsWorldSystem.handleCollisionEvent true beginNotification) =
      [(10, 2), (10, 2), (20, 1)] := by
  have h := begin_dispatch_order entA entB
    ⟨[cbOk 10, cbOk 10], [cbOk 11]⟩ ⟨[cbOk 20], [cbOk 21]⟩ rfl rfl
  refine ⟨rfl, ?_⟩
  simpa [beginNotification, entA, entB, cbOk] using h

/-- C4: a notification in which either body handle fails to resolve to an
entity (cleared back-reference, throwing `getUserData`, or non-entity user
data) is discarded whole: no callback runs, nothing is logged, nothing is
raised. -/
theorem unresolved_notification_discarded (data : CollisionEventData)
    (hnone : PhysicsWorldSystem.getEntityFromBody data.bodyA = none ∨
      PhysicsWorldSystem.getEntityFromBody data.bodyB = none) :
    PhysicsWorldSystem.handleCollisionEvent true data = [] := by
  unfold PhysicsWorldSystem.handleCollisionEvent
  rcases hA : PhysicsWorldSystem.getEntityFromBody data.bodyA with _ | a <;>
    rcases hB : PhysicsWorldSystem.getEntityFromBody data.bodyB with _ | b <;>
    simp_all

/-- Witness for `unresolved_notification_discarded`: a body whose
back-reference was cleared (`getUserData` returns null) and a body whose
`getUserData` throws both make the notification vanish. -/
theorem unresolved_notification_discarded_witness :
    PhysicsWorldSystem.getEntityFromBody ⟨Except.ok none⟩ = none ∧
    PhysicsWorldSystem.handleCollisionEvent true
      ⟨⟨Except.ok none⟩, ⟨Except.ok (some entB)⟩, true, false⟩ = [] ∧
    PhysicsWorldSystem.getEntityFromBody ⟨Except.error "boom"⟩ = none ∧
    PhysicsWorldSystem.handleCollisionEvent true
      ⟨⟨Except.error "boom"⟩, ⟨Except.ok (some entB)⟩, true, false⟩ = [] :=
  ⟨rfl, unresolved_notification_discarded _ (Or.inl rfl),
   rfl, unresolved_notification_discarded _ (Or.inl rfl)⟩

/-- C5 is refuted: a notification with both contact flags set is not
dropped — the begin callbacks of both entities are invoked — and nothing is
logged for it (the claim required a logged contract violation and no
callback of either kind). -/
theorem malformed_notification_counterexample :
    invocations (PhysicsWorldSystem.handleCollisionEvent true malformedBoth) ≠ [] ∧
    warnings (PhysicsWorldSystem.handleCollisionEvent true malformedBoth) = [] := by
  constructor <;>
    simp [malformedBoth, entA, entB, cbOk,
      PhysicsWorldSystem.handleCollisionEvent,
      PhysicsWorldSystem.getEntityFromBody,
      PhysicsWorldSystem.handleEntityCollision,
      dispatchCallbacks, invokeCaught, invocations, warnings]

/-- C5 as amended: the dispatcher never logs a malformed notification; one
with both flags set is handled exactly as a begin notification, and one
with neither flag set invokes no callback and produces no trace at all. -/
theorem malformed_notification_behavior (w : Bool) (bA bB : Body) :
    PhysicsWorldSystem.handleCollisionEvent w ⟨bA, bB, true, true⟩ =
      PhysicsWorldSystem.handleCollisionEvent w ⟨bA, bB, true, false⟩ ∧
    PhysicsWorldSystem.handleCollisionEvent w ⟨bA, bB, false, false⟩ = [] := by
  cases w
  · simp [PhysicsWorldSystem.handleCollisionEvent]
  · unfold PhysicsWorldSystem.handleCollisionEvent
    rcases hA : PhysicsWorldSystem.getEntityFromBody bA with _ | a <;>
      rcases hB : PhysicsWorldSystem.getEntityFromBody bB with _ | b <;>
      simp [hA, hB, handleEntityCollision_both_flags, handleEntityCollision_no_flags]

/-- C3 is refuted in one conjunct: the warn message for a throwing callback
is built only from the event kind and the error, so two entities with
different ids produce byte-identical logs — the log carries no entity id. -/
theorem callback_fault_log_counterexample :
    entC.id ≠ entD.id ∧
    warnings (PhysicsWorldSystem.handleEntityCollision entC entB true false) ≠ [] ∧
    warnings (PhysicsWorldSystem.handleEntityCollision entC entB true false) =
      warnings (PhysicsWorldSystem.handleEntityCollision entD entB true false) := by
  refine ⟨by simp [entC, entD], ?_, ?_⟩ <;>
    simp [entC, entD, entB, cbBoom, cbOk,
      PhysicsWorldSystem.handleEntityCollision,
      dispatchCallbacks, invokeCaught, warnings]

/-- C3 as amended: a raising callback never prevents the remaining
callbacks of either entity from running (every registered callback is
invoked, whatever the callbacks throw), each fault is caught at
single-callback granularity and logged with the event kind and the error
text (but no entity id), and handling always runs to completion instead of
raising. Stated for a begin notification and for an end notification. -/
theorem callback_fault_isolated (a b : Entity)
    (compA compB : CollisionEventComponent)
    (ha : a.collisionComp = some compA) (hb : b.collisionComp = some compB) :
    (invocations (PhysicsWorldSystem.handleCollisionEvent true
        ⟨⟨Except.ok (some a)⟩, ⟨Except.ok (some b)⟩, true, false⟩) =
      compA.onCollisionBegin.map (fun cb => (cb.cid, b.id)) ++
      compB.onCollisionBegin.map (fun cb => (cb.cid, a.id)) ∧
     warnings (PhysicsWorldSystem.handleCollisionEvent true
        ⟨⟨Except.ok (some a)⟩, ⟨Except.ok (some b)⟩, true, false⟩) =
      compA.onCollisionBegin.filterMap
        (fun cb => faultWarning "begin" (cb.run b.id)) ++
      compB.onCollisionBegin.filterMap
        (fun cb => faultWarning "begin" (cb.run a.id))) ∧
    (invocations (PhysicsWorldSystem.handleCollisionEvent true
        ⟨⟨Except.ok (some a)⟩, ⟨Except.ok (some b)⟩, false, true⟩) =
      compA.onCollisionEnd.map (fun cb => (cb.cid, b.id)) ++
      compB.onCollisionEnd.map (fun cb => (cb.cid, a.id)) ∧
     warnings (PhysicsWorldSystem.handleCollisionEvent true
        ⟨⟨Except.ok (some a)⟩, ⟨Except.ok (some b)⟩, false, true⟩) =
      compA.onCollisionEnd.filterMap
        (fun cb => faultWarning "end" (cb.run b.id)) ++
      compB.onCollisionEnd.filterMap
        (fun cb => faultWarning "end" (cb.run a.id))) := by
  refine ⟨⟨?_, ?_⟩, ⟨?_, ?_⟩⟩ <;>
    simp [PhysicsWorldSystem.handleCollisionEvent,
      PhysicsWorldSystem.getEntityFromBody,
      PhysicsWorldSystem.handleEntityCollision, ha, hb,
      invocations_append, warnings_append,
      invocations_dispatchCallbacks, warnings_dispatchCallbacks]

/-- Witness for `callback_fault_isolated`: entity 7 has a throwing begin
callback (id 30) followed by a normal one (id 31); both are invoked, the
non-throwing callback still executes after the fault, entity 2 callbacks
also run, and exactly one warn line (kind context, no entity id) appears. -/
theorem callback_fault_isolated_witness :
    entC.collisionComp = some ⟨[cbBoom 30, cbOk 31], []⟩ ∧
    invocations (PhysicsWorldSystem.handleCollisionEvent true
      ⟨⟨Except.ok (some entC)⟩, ⟨Except.ok (some entB)⟩, true, false⟩) =
      [(30, 2), (31, 2), (20, 7)] ∧
    warnings (PhysicsWorldSystem.handleCollisionEvent true
      ⟨⟨Except.ok (some entC)⟩, ⟨Except.ok (some entB)⟩, true, false⟩) =
      ["Error in collision begin callback: E"] := by
  have h := callback_fault_isolated entC entB
    ⟨[cbBoom 30, cbOk 31], []⟩ ⟨[cbOk 20], [cbOk 21]⟩ rfl rfl
  refine ⟨rfl, ?_, ?_⟩
  · simpa [entC, entB, cbBoom, cbOk] using h.1.1
  · simpa [entC, entB, cbBoom, cbOk, faultWarning] using h.1.2

/-- C9 is refuted: a fully handled begin notification dispatches to the
per-entity callback lists but publishes nothing on any global event
channel (the correlator holds no event manager; `emit` is only an
interface declaration). -/
theorem global_fanout_counterexample :
    invocations (PhysicsWorldSystem.handleCollisionEvent true beginNotification) ≠ [] ∧
    globalEmitCount (PhysicsWorldSystem.handleCollisionEvent true beginNotification) = 0 := by
  constructor <;>
    simp [beginNotification, entA, entB, cbOk,
      PhysicsWorldSystem.handleCollisionEvent,
      PhysicsWorldSystem.getEntityFromBody,
      PhysicsWorldSystem.handleEntityCollision,
      dispatchCallbacks, invokeCaught, invocations, globalEmitCount]

/-- C9 as amended: the correlator dispatches only to per-entity callback
lists; no notification, of any kind or shape, is published on a global
event channel by `handleCollisionEvent`. -/
theorem no_global_fanout (w : Bool) (data : CollisionEventData) :
    globalEmitCount (PhysicsWorldSystem.handleCollisionEvent w data) = 0 := by
  cases w
  · simp [PhysicsWorldSystem.handleCollisionEvent, globalEmitCount_nil]
  · unfold PhysicsWorldSystem.handleCollisionEvent
    rcases hA : PhysicsWorldSystem.getEntityFromBody data.bodyA with _ | a <;>
      rcases hB : PhysicsWorldSystem.getEntityFromBody data.bodyB with _ | b <;>
      simp [hA, hB, globalEmitCount_nil, globalEmitCount_handleEntityCollision]

/-! ## View Transform Mapper (`BasePhysicsDebugRenderer`, debug renderer
source)

Only the view transform fields and the coordinate conversions are embedded.
These methods call `cos`/`sin` on the view rotation, so this part of the
model reads the `Fixed` scalars as real numbers (exact arithmetic); real
division by zero yields `0` in Lean, matching the unhandled-degenerate-case
status of a zero zoom. -/

/-- View transform state of `BasePhysicsDebugRenderer`. -/
structure BasePhysicsDebugRenderer where
  viewPosition : Vec2 ℝ
  viewRotation : ℝ
  viewZoom : ℝ

/-- Field initializers of the `BasePhysicsDebugRenderer` constructor:
zero position (`new FixedVector2()`), `Fixed.ZERO` rotation, `Fixed.ONE`
zoom. -/
noncomputable def initialViewState : BasePhysicsDebugRenderer :=
  ⟨⟨0, 0⟩, 0, 1⟩

/-- `setViewTransform`: replace the three view fields wholesale. -/
def BasePhysicsDebugRenderer.setViewTransform
    (_ : BasePhysicsDebugRenderer) (position : Vec2 ℝ) (rotation zoom : ℝ) :
    BasePhysicsDebugRenderer :=
  ⟨position, rotation, zoom⟩

/-- `resetViewTransform`: zero position, zero rotation, unit zoom. -/
noncomputable def BasePhysicsDebugRenderer.resetViewTransform
    (_ : BasePhysicsDebugRenderer) : BasePhysicsDebugRenderer :=
  ⟨⟨0, 0⟩, 0, 1⟩

/-- `worldToScreen`: subtract the view position, scale by the zoom, then
rotate by the view rotation (the rotation branch is skipped when the
rotation equals zero). -/
noncomputable def BasePhysicsDebugRenderer.worldToScreen
    (r : BasePhysicsDebugRenderer) (worldPos : Vec2 ℝ) : Vec2 ℝ :=
  let relativePos := worldPos.sub r.viewPosition
  let scaledPos := relativePos.smul r.viewZoom
  if r.viewRotation ≠ 0 then
    let c := Real.cos r.viewRotation
    let s := Real.sin r.viewRotation
    ⟨scaledPos.x * c - scaledPos.y * s, scaledPos.x * s + scaledPos.y * c⟩
  else
    scaledPos

/-- `screenToWorld`: inverse-rotate (cosine/sine combination with the
opposite sign), divide by the zoom, then add the view position. -/
noncomputable def BasePhysicsDebugRenderer.screenToWorld
    (r : BasePhysicsDebugRenderer) (screenPos : Vec2 ℝ) : Vec2 ℝ :=
  let worldPos :=
    if r.viewRotation ≠ 0 then
      let c := Real.cos r.viewRotation
      let s := Real.sin r.viewRotation
      (⟨screenPos.x * c + screenPos.y * s,
        screenPos.y * c - screenPos.x * s⟩ : Vec2 ℝ)
    else
      screenPos
  (worldPos.sdiv r.viewZoom).add r.viewPosition

/-- C8: for every view transform with non-zero zoom and every point,
`screenToWorld` undoes `worldToScreen` exactly (exact arithmetic model). -/
theorem worldToScreen_roundtrip (r : BasePhysicsDebugRenderer) (p : Vec2 ℝ)
    (hz : r.viewZoom ≠ 0) :
    r.screenToWorld (r.worldToScreen p) = p := by
  have hcs : Real.sin r.viewRotation ^ 2 + Real.cos r.viewRotation ^ 2 = 1 :=
    Real.sin_sq_add_cos_sq r.viewRotation
  by_cases hrot : r.viewRotation = 0
  · simp only [BasePhysicsDebugRenderer.worldToScreen,
      BasePhysicsDebugRenderer.screenToWorld, hrot, ne_eq,
      not_true_eq_false, if_false, Vec2.sub, Vec2.smul, Vec2.sdiv, Vec2.add]
    ext <;> field_simp
  · have key : ∀ u v : ℝ,
        (u * Real.cos r.viewRotation - v * Real.sin r.viewRotation) *
            Real.cos r.viewRotation +
          (u * Real.sin r.viewRotation + v * Real.cos r.viewRotation) *
            Real.sin r.viewRotation = u := by
      intro u v
      linear_combination u * hcs
    have key2 : ∀ u v : ℝ,
        (u * Real.sin r.viewRotation + v * Real.cos r.viewRotation) *
            Real.cos r.viewRotation -
          (u * Real.cos r.viewRotation - v * Real.sin r.viewRotation) *
            Real.sin r.viewRotation = v := by
      intro u v
      linear_combination v * hcs
    simp only [BasePhysicsDebugRenderer.worldToScreen,
      BasePhysicsDebugRenderer.screenToWorld, ne_eq, hrot,
      not_false_eq_true, if_true, Vec2.sub, Vec2.smul, Vec2.sdiv, Vec2.add]
    ext
    · show ((((p.x - r.viewPosition.x) * r.viewZoom) * Real.cos r.viewRotation -
          ((p.y - r.viewPosition.y) * r.viewZoom) * Real.sin r.viewRotation) *
            Real.cos r.viewRotation +
          (((p.x - r.viewPosition.x) * r.viewZoom) * Real.sin r.viewRotation +
          ((p.y - r.viewPosition.y) * r.viewZoom) * Real.cos r.viewRotation) *
            Real.sin r.viewRotation) / r.viewZoom + r.viewPosition.x = p.x
      rw [key]
      field_simp
    · show ((((p.x - r.viewPosition.x) * r.viewZoom) * Real.sin r.viewRotation +
          ((p.y - r.viewPosition.y) * r.viewZoom) * Real.cos r.viewRotation) *
            Real.cos r.viewRotation -
          (((p.x - r.viewPosition.x) * r.viewZoom) * Real.cos r.viewRotation -
          ((p.y - r.viewPosition.y) * r.viewZoom) * Real.sin r.viewRotation) *
            Real.sin r.viewRotation) / r.viewZoom + r.viewPosition.y = p.y
      rw [key2]
      field_simp

/-- Witness for `worldToScreen_roundtrip`: a concrete view transform with
zoom 2 (non-zero) and the concrete point (3, 5) round-trips exactly. -/
theorem worldToScreen_roundtrip_witness :
    ((⟨⟨1, 1⟩, 0, 2⟩ : BasePhysicsDebugRenderer)).viewZoom ≠ 0 ∧
    (⟨⟨1, 1⟩, 0, 2⟩ : BasePhysicsDebugRenderer).screenToWorld
      ((⟨⟨1, 1⟩, 0, 2⟩ : BasePhysicsDebugRenderer).worldToScreen ⟨3, 5⟩) =
      ⟨3, 5⟩ :=
  ⟨by norm_num, worldToScreen_roundtrip ⟨⟨1, 1⟩, 0, 2⟩ ⟨3, 5⟩ (by norm_num)⟩

/-- C10: `resetViewTransform` restores the constructor state (zero
position, zero rotation, unit zoom), and in that state both `worldToScreen`
and `screenToWorld` are the identity on every point. -/
theorem resetViewTransform_identity (r : BasePhysicsDebugRenderer) (p : Vec2 ℝ) :
    r.resetViewTransform = initialViewState ∧
    (r.resetViewTransform).worldToScreen p = p ∧
    (r.resetViewTransform).screenToWorld p = p := by
  refine ⟨rfl, ?_, ?_⟩ <;>
    · simp only [BasePhysicsDebugRenderer.resetViewTransform,
        BasePhysicsDebugRenderer.worldToScreen,
        BasePhysicsDebugRenderer.screenToWorld, ne_eq,
        not_true_eq_false, if_false, Vec2.sub, Vec2.smul, Vec2.sdiv, Vec2.add]
      ext <;> simp

end NovaPhysics
